import Mathlib

/-!
Verification of the kidney-disease assessment app (`src/app.py`).

The app is a four-page wizard: a welcome page, two input pages whose
controls write into an eleven-field record in session state, and a results
page that builds a single-row table from the record, optionally reorders its
columns to the order the loaded classifier expects, invokes the classifier
and maps its raw output to a binary display label.  The development below is
a shallow embedding of that behaviour: session state becomes an explicit
`State` value, user interactions become an `Event` type consumed by `step`,
and the classifier is an opaque `Model` parameter whose prediction may fail.
-/

namespace KidneyApp

/-- The eleven-field input record stored in session state
(`app.py` lines 279-291).  Integer-valued controls are modelled with `ℤ`
and decimal-valued controls with `ℚ`. -/
structure Inputs where
  age : ℤ
  glucose : ℤ
  serum_creatinine : ℚ
  potassium : ℚ
  wbc : ℤ
  urine_output : ℤ
  blood_urea : ℚ
  upcr : ℚ
  egfr : ℚ
  pth : ℚ
  il6 : ℚ
  deriving DecidableEq

/-- Default values assigned to the record at creation (`app.py` lines 279-291). -/
def defaultInputs : Inputs :=
  { age := 40, glucose := 100, serum_creatinine := 1.00, potassium := 4.00,
    wbc := 7000, urine_output := 1500, blood_urea := 40.00, upcr := 0.50,
    egfr := 90.00, pth := 40.00, il6 := 5.00 }

/-- Wizard session state: the current page number and the input record
(`st.session_state.page` and `st.session_state.inputs`). -/
structure State where
  page : ℤ
  inputs : Inputs
  deriving DecidableEq

/-- Initial session state (`app.py` lines 274-291): page 1 with the default
record. -/
def initState : State :=
  { page := 1, inputs := defaultInputs }

/-- The session-state guard at `app.py` line 274: a session with no state yet
is initialised once with `initState`; a session that already has state is
left untouched, so the record is created exactly once per session. -/
def initSession : Option State → State
  | none => initState
  | some s => s

/-- The function `go_to_page` (`app.py` lines 297-299): sets the current page and reruns;
the input record is not touched. -/
def go_to_page (s : State) (page_num : ℤ) : State :=
  { s with page := page_num }

/-- Modelled from the spec: the hosting framework is external to the repo, and
the spec states that each input control keeps its stored value inside the
declared bounds, with out-of-range entries clamped to the nearest bound by
the control itself.  Integer-control clamping. -/
def clampInt (lo hi v : ℤ) : ℤ := max lo (min hi v)

/-- Modelled from the spec: decimal-control clamping to the declared bounds,
as for `clampInt`. -/
def clampQ (lo hi v : ℚ) : ℚ := max lo (min hi v)

/-- One user interaction: a button press (one per `st.button` key in
`app.py`) or an input-control change carrying the raw entered value. -/
inductive Event where
  | start_assessment
  | set_age (raw : ℤ)
  | set_glucose (raw : ℤ)
  | set_serum_creatinine (raw : ℚ)
  | set_potassium (raw : ℚ)
  | set_wbc (raw : ℤ)
  | home_from_basic
  | next_to_kidney
  | set_urine_output (raw : ℤ)
  | set_blood_urea (raw : ℚ)
  | set_upcr (raw : ℚ)
  | set_egfr (raw : ℚ)
  | set_pth (raw : ℚ)
  | set_il6 (raw : ℚ)
  | analyze
  | prev_to_basic
  | home_from_kidney
  | home_from_results

/-- Effect of one user interaction on session state.  The router
(`app.py` lines 578-591) renders exactly one page, so a control or button
only takes effect while the session is on the page that renders it: page 1
hosts the start button (line 334), page 2 the five basic-metric controls and
its two buttons (lines 369-425), page 3 the six kidney-metric controls and
its three buttons (lines 440-513), and page 4 the return-home button
(line 568).  Each control writes the clamped value back into its own field
with the bounds the source passes to it. -/
def step (s : State) : Event → State
  | .start_assessment => if s.page = 1 then go_to_page s 2 else s
  | .set_age raw =>
      if s.page = 2 then
        { s with inputs := { s.inputs with age := clampInt 5 100 raw } }
      else s
  | .set_glucose raw =>
      if s.page = 2 then
        { s with inputs := { s.inputs with glucose := clampInt 50 600 raw } }
      else s
  | .set_serum_creatinine raw =>
      if s.page = 2 then
        { s with inputs := { s.inputs with serum_creatinine := clampQ 0.50 20.00 raw } }
      else s
  | .set_potassium raw =>
      if s.page = 2 then
        { s with inputs := { s.inputs with potassium := clampQ 2.00 8.00 raw } }
      else s
  | .set_wbc raw =>
      if s.page = 2 then
        { s with inputs := { s.inputs with wbc := clampInt 1000 20000 raw } }
      else s
  | .home_from_basic => if s.page = 2 then go_to_page s 1 else s
  | .next_to_kidney => if s.page = 2 then go_to_page s 3 else s
  | .set_urine_output raw =>
      if s.page = 3 then
        { s with inputs := { s.inputs with urine_output := clampInt 300 4000 raw } }
      else s
  | .set_blood_urea raw =>
      if s.page = 3 then
        { s with inputs := { s.inputs with blood_urea := clampQ 5.00 250.00 raw } }
      else s
  | .set_upcr raw =>
      if s.page = 3 then
        { s with inputs := { s.inputs with upcr := clampQ 0.01 10.00 raw } }
      else s
  | .set_egfr raw =>
      if s.page = 3 then
        { s with inputs := { s.inputs with egfr := clampQ 0.01 200.00 raw } }
      else s
  | .set_pth raw =>
      if s.page = 3 then
        { s with inputs := { s.inputs with pth := clampQ 10.00 100.00 raw } }
      else s
  | .set_il6 raw =>
      if s.page = 3 then
        { s with inputs := { s.inputs with il6 := clampQ 0.01 20.00 raw } }
      else s
  | .analyze => if s.page = 3 then go_to_page s 4 else s
  | .prev_to_basic => if s.page = 3 then go_to_page s 2 else s
  | .home_from_kidney => if s.page = 3 then go_to_page s 1 else s
  | .home_from_results => if s.page = 4 then go_to_page s 1 else s

/-- A value lies in a closed integer range. -/
def fieldRangeInt (lo hi v : ℤ) : Prop := lo ≤ v ∧ v ≤ hi

/-- A value lies in a closed rational range. -/
def fieldRangeQ (lo hi v : ℚ) : Prop := lo ≤ v ∧ v ≤ hi

/-- Every field of the record lies within its declared [min, max] range, the
bounds being exactly those the source passes to each control. -/
def InRange (i : Inputs) : Prop :=
  fieldRangeInt 5 100 i.age ∧
  fieldRangeInt 50 600 i.glucose ∧
  fieldRangeQ 0.50 20.00 i.serum_creatinine ∧
  fieldRangeQ 2.00 8.00 i.potassium ∧
  fieldRangeInt 1000 20000 i.wbc ∧
  fieldRangeInt 300 4000 i.urine_output ∧
  fieldRangeQ 5.00 250.00 i.blood_urea ∧
  fieldRangeQ 0.01 10.00 i.upcr ∧
  fieldRangeQ 0.01 200.00 i.egfr ∧
  fieldRangeQ 10.00 100.00 i.pth ∧
  fieldRangeQ 0.01 20.00 i.il6

/-- Column names of the single-row table, in the hard-coded construction
order of `app.py` lines 531-543. -/
def columnNames : List String :=
  ["Age of the patient",
   "Random blood glucose level (mg/dl)",
   "Blood urea (mg/dl)",
   "Serum creatinine (mg/dl)",
   "Potassium level (mEq/L)",
   "White blood cell count (cells/cumm)",
   "Estimated Glomerular Filtration Rate (eGFR)",
   "Urine protein-to-creatinine ratio",
   "Urine output (ml/day)",
   "Parathyroid hormone (PTH) level",
   "Interleukin-6 (IL-6) level"]

/-- The single-row DataFrame `input_data` (`app.py` lines 531-543), as an
ordered association list from column name to the cell value of its single
row.  Integer fields are coerced to `ℚ` cells. -/
def mkInputData (i : Inputs) : List (String × ℚ) :=
  [("Age of the patient", (i.age : ℚ)),
   ("Random blood glucose level (mg/dl)", (i.glucose : ℚ)),
   ("Blood urea (mg/dl)", i.blood_urea),
   ("Serum creatinine (mg/dl)", i.serum_creatinine),
   ("Potassium level (mEq/L)", i.potassium),
   ("White blood cell count (cells/cumm)", (i.wbc : ℚ)),
   ("Estimated Glomerular Filtration Rate (eGFR)", i.egfr),
   ("Urine protein-to-creatinine ratio", i.upcr),
   ("Urine output (ml/day)", (i.urine_output : ℚ)),
   ("Parathyroid hormone (PTH) level", i.pth),
   ("Interleukin-6 (IL-6) level", i.il6)]

/-- The loaded classifier artifact, opaque to the app: it optionally exposes
the attribute `feature_names_in_`, and its `predict` returns a list of raw
output values (the app reads element 0).  `Except.error` models a raised
exception. -/
structure Model where
  feature_names_in_ : Option (List String)
  predictFn : List (String × ℚ) → Except String (List String)

/-- Column selection `input_data[model.feature_names_in_]` (`app.py` line 547): pandas column
selection returns the named columns in the requested order, and raises a
KeyError when a requested name is absent. -/
def selectColumns (names : List String) (row : List (String × ℚ)) :
    Except String (List (String × ℚ)) :=
  match names with
  | [] => .ok []
  | n :: rest =>
    match row.find? (fun p => p.1 == n) with
    | none => .error ("KeyError: " ++ n)
    | some p =>
      match selectColumns rest row with
      | .ok d => .ok (p :: d)
      | .error e => .error e

/-- The call `model.predict(input_data)[0]` (`app.py` line 550): invoke the classifier
on the prepared table and take element 0 of its output; an empty output makes
the indexing raise. -/
def predictFirst (m : Model) (d : List (String × ℚ)) : Except String String :=
  match m.predictFn d with
  | .error e => .error e
  | .ok [] => .error "index 0 is out of bounds"
  | .ok (o :: _) => .ok o

/-- The prediction pipeline of `results_page` (`app.py` lines 531-550): build
the single-row table, reorder its columns when the model exposes
`feature_names_in_`, then invoke the classifier and take element 0.  Any
exception propagates as `.error`. -/
def resultsPrediction (m : Model) (i : Inputs) : Except String String :=
  let input_data := mkInputData i
  match m.feature_names_in_ with
  | none => predictFirst m input_data
  | some names =>
    match selectColumns names input_data with
    | .error e => .error e
    | .ok d => predictFirst m d

/-- The binary display label. -/
inductive Label where
  | Negative
  | Positive
  deriving DecidableEq

/-- Lines 553-560 of `app.py`: the raw output `"No_Disease"` maps to the
negative label and any other output to the positive one. -/
def labelOf (output : String) : Label :=
  if output = "No_Disease" then .Negative else .Positive

/-- The headline rendered for each label (`app.py` lines 555 and 559). -/
def displayOf : Label → String
  | .Negative => "No Kidney Disease Detected"
  | .Positive => "Kidney Disease Detected"

/-- What the body of the Results page shows: a labelled result, or the inline
`st.error` message produced by the except handler (`app.py` line 564). -/
inductive ResultsBody where
  | labelShown (l : Label) (title : String)
  | inlineError (msg : String)
  deriving DecidableEq

/-- The rendered Results step: its body, and whether the return-home button
is rendered (it sits outside the try block, `app.py` lines 566-570). -/
structure ResultsRender where
  body : ResultsBody
  returnHomeAvailable : Bool
  deriving DecidableEq

/-- The function `results_page` (`app.py` lines 518-570) as a pure render of the session
record: the prediction pipeline runs inside try/except, a raised exception
becomes an inline error message, and the return-home button is rendered in
either case.  The function reads the record and returns no new state. -/
def results_page (m : Model) (i : Inputs) : ResultsRender :=
  match resultsPrediction m i with
  | .ok out =>
    { body := .labelShown (labelOf out) (displayOf (labelOf out)),
      returnHomeAvailable := true }
  | .error e =>
    { body := .inlineError ("Prediction error: " ++ e),
      returnHomeAvailable := true }

/-- Outcome of process start (`app.py` lines 12-18): a failed model load
reports `st.error` with the exception text and stops execution before any
page renders; a successful load proceeds to the router. -/
inductive AppStart where
  | fatalStop (msg : String)
  | running (m : Model)

/-- The try/except around `joblib.load` at `app.py` lines 12-18. -/
def startApp : Except String Model → AppStart
  | .error e => .fatalStop ("Error loading model: " ++ e)
  | .ok m => .running m

/-- Whether a start outcome goes on to render a wizard step. -/
def rendersStep : AppStart → Bool
  | .fatalStop _ => false
  | .running _ => true

/-- The four page views of the wizard. -/
inductive PageView where
  | welcome
  | basicMetrics
  | kidneyMetrics
  | results
  deriving DecidableEq

/-- The four-way router (`app.py` lines 578-591): pages 1 to 4 each select
exactly one page function; any other value matches no branch. -/
def route (p : ℤ) : Option PageView :=
  if p = 1 then some .welcome
  else if p = 2 then some .basicMetrics
  else if p = 3 then some .kidneyMetrics
  else if p = 4 then some .results
  else none

/-- Events that are pure navigation: the button presses that call
`go_to_page`. -/
def isNavEvent : Event → Bool
  | .start_assessment => true
  | .home_from_basic => true
  | .next_to_kidney => true
  | .analyze => true
  | .prev_to_basic => true
  | .home_from_kidney => true
  | .home_from_results => true
  | _ => false

/-- The declared step transitions: the linear forward path
(1,2), (2,3), (3,4) and the backward/home transitions (2,1), (3,1), (3,2),
(4,1). -/
def allowedTransitions : List (ℤ × ℤ) :=
  [(1, 2), (2, 3), (3, 4), (2, 1), (3, 1), (3, 2), (4, 1)]

/-- The page number is one of the four wizard pages. -/
def pageValid (s : State) : Prop :=
  s.page = 1 ∨ s.page = 2 ∨ s.page = 3 ∨ s.page = 4

/-- Internal field keys in the order the two metric pages collect them
(`app.py` lines 369-412 then 440-495). -/
def collectionOrderFields : List String :=
  ["age", "glucose", "serum_creatinine", "potassium", "wbc",
   "urine_output", "blood_urea", "upcr", "egfr", "pth", "il6"]

/-- Internal field keys in the order the DataFrame columns are constructed
(`app.py` lines 532-542). -/
def constructionOrderFields : List String :=
  ["age", "glucose", "blood_urea", "serum_creatinine", "potassium", "wbc",
   "egfr", "upcr", "urine_output", "pth", "il6"]

/-- The label of the IL-6 input control (`app.py` line 489). -/
def il6ControlLabel : String := "Interleukin-6 (IL-6) level (pg/ml)"

/-- The IL-6 column name of the constructed DataFrame (`app.py` line 542). -/
def il6ColumnName : String := "Interleukin-6 (IL-6) level"

/-- A demonstration classifier that exposes no feature order and always
outputs `"No_Disease"`. -/
def demoNegativeModel : Model :=
  { feature_names_in_ := none, predictFn := fun _ => .ok ["No_Disease"] }

/-- A demonstration classifier that expects the columns in reverse
construction order. -/
def demoReorderModel : Model :=
  { feature_names_in_ := some columnNames.reverse,
    predictFn := fun d => .ok (d.map Prod.fst) }

/-- A demonstration classifier whose predict always raises. -/
def demoFailingModel : Model :=
  { feature_names_in_ := none, predictFn := fun _ => .error "boom" }

/-! ## Helper lemmas -/

lemma clampInt_bounds (lo hi v : ℤ) (h : lo ≤ hi) :
    lo ≤ clampInt lo hi v ∧ clampInt lo hi v ≤ hi :=
  ⟨le_max_left _ _, max_le h (min_le_left _ _)⟩

lemma clampQ_bounds (lo hi v : ℚ) (h : lo ≤ hi) :
    lo ≤ clampQ lo hi v ∧ clampQ lo hi v ≤ hi :=
  ⟨le_max_left _ _, max_le h (min_le_left _ _)⟩

lemma defaultInputs_inRange : InRange defaultInputs := by
  refine ⟨⟨?_, ?_⟩, ⟨?_, ?_⟩, ⟨?_, ?_⟩, ⟨?_, ?_⟩, ⟨?_, ?_⟩, ⟨?_, ?_⟩,
    ⟨?_, ?_⟩, ⟨?_, ?_⟩, ⟨?_, ?_⟩, ⟨?_, ?_⟩, ⟨?_, ?_⟩⟩ <;>
    norm_num [defaultInputs]

lemma step_preserves_inRange (s : State) (e : Event)
    (h : InRange s.inputs) : InRange (step s e).inputs := by
  obtain ⟨ha, hg, hsc, hp, hw, hu, hb, hup, he, hpt, hil⟩ := h
  cases e with
  | start_assessment =>
    simp only [step]; split <;>
      exact ⟨ha, hg, hsc, hp, hw, hu, hb, hup, he, hpt, hil⟩
  | set_age raw =>
    simp only [step]; split
    · exact ⟨clampInt_bounds 5 100 raw (by norm_num), hg, hsc, hp, hw, hu,
        hb, hup, he, hpt, hil⟩
    · exact ⟨ha, hg, hsc, hp, hw, hu, hb, hup, he, hpt, hil⟩
  | set_glucose raw =>
    simp only [step]; split
    · exact ⟨ha, clampInt_bounds 50 600 raw (by norm_num), hsc, hp, hw, hu,
        hb, hup, he, hpt, hil⟩
    · exact ⟨ha, hg, hsc, hp, hw, hu, hb, hup, he, hpt, hil⟩
  | set_serum_creatinine raw =>
    simp only [step]; split
    · exact ⟨ha, hg, clampQ_bounds 0.50 20.00 raw (by norm_num), hp, hw, hu,
        hb, hup, he, hpt, hil⟩
    · exact ⟨ha, hg, hsc, hp, hw, hu, hb, hup, he, hpt, hil⟩
  | set_potassium raw =>
    simp only [step]; split
    · exact ⟨ha, hg, hsc, clampQ_bounds 2.00 8.00 raw (by norm_num), hw, hu,
        hb, hup, he, hpt, hil⟩
    · exact ⟨ha, hg, hsc, hp, hw, hu, hb, hup, he, hpt, hil⟩
  | set_wbc raw =>
    simp only [step]; split
    · exact ⟨ha, hg, hsc, hp, clampInt_bounds 1000 20000 raw (by norm_num),
        hu, hb, hup, he, hpt, hil⟩
    · exact ⟨ha, hg, hsc, hp, hw, hu, hb, hup, he, hpt, hil⟩
  | home_from_basic =>
    simp only [step]; split <;>
      exact ⟨ha, hg, hsc, hp, hw, hu, hb, hup, he, hpt, hil⟩
  | next_to_kidney =>
    simp only [step]; split <;>
      exact ⟨ha, hg, hsc, hp, hw, hu, hb, hup, he, hpt, hil⟩
  | set_urine_output raw =>
    simp only [step]; split
    · exact ⟨ha, hg, hsc, hp, hw, clampInt_bounds 300 4000 raw (by norm_num),
        hb, hup, he, hpt, hil⟩
    · exact ⟨ha, hg, hsc, hp, hw, hu, hb, hup, he, hpt, hil⟩
  | set_blood_urea raw =>
    simp only [step]; split
    · exact ⟨ha, hg, hsc, hp, hw, hu,
        clampQ_bounds 5.00 250.00 raw (by norm_num), hup, he, hpt, hil⟩
    · exact ⟨ha, hg, hsc, hp, hw, hu, hb, hup, he, hpt, hil⟩
  | set_upcr raw =>
    simp only [step]; split
    · exact ⟨ha, hg, hsc, hp, hw, hu, hb,
        clampQ_bounds 0.01 10.00 raw (by norm_num), he, hpt, hil⟩
    · exact ⟨ha, hg, hsc, hp, hw, hu, hb, hup, he, hpt, hil⟩
  | set_egfr raw =>
    simp only [step]; split
    · exact ⟨ha, hg, hsc, hp, hw, hu, hb, hup,
        clampQ_bounds 0.01 200.00 raw (by norm_num), hpt, hil⟩
    · exact ⟨ha, hg, hsc, hp, hw, hu, hb, hup, he, hpt, hil⟩
  | set_pth raw =>
    simp only [step]; split
    · exact ⟨ha, hg, hsc, hp, hw, hu, hb, hup, he,
        clampQ_bounds 10.00 100.00 raw (by norm_num), hil⟩
    · exact ⟨ha, hg, hsc, hp, hw, hu, hb, hup, he, hpt, hil⟩
  | set_il6 raw =>
    simp only [step]; split
    · exact ⟨ha, hg, hsc, hp, hw, hu, hb, hup, he, hpt,
        clampQ_bounds 0.01 20.00 raw (by norm_num)⟩
    · exact ⟨ha, hg, hsc, hp, hw, hu, hb, hup, he, hpt, hil⟩
  | analyze =>
    simp only [step]; split <;>
      exact ⟨ha, hg, hsc, hp, hw, hu, hb, hup, he, hpt, hil⟩
  | prev_to_basic =>
    simp only [step]; split <;>
      exact ⟨ha, hg, hsc, hp, hw, hu, hb, hup, he, hpt, hil⟩
  | home_from_kidney =>
    simp only [step]; split <;>
      exact ⟨ha, hg, hsc, hp, hw, hu, hb, hup, he, hpt, hil⟩
  | home_from_results =>
    simp only [step]; split <;>
      exact ⟨ha, hg, hsc, hp, hw, hu, hb, hup, he, hpt, hil⟩

lemma step_nav_inputs (s : State) (e : Event) (h : isNavEvent e = true) :
    (step s e).inputs = s.inputs := by
  cases e <;>
    (try (simp only [step]; split <;> rfl)) <;>
    simp [isNavEvent] at h

lemma step_preserves_pageValid (s : State) (e : Event)
    (h : pageValid s) : pageValid (step s e) := by
  cases e <;> simp only [step] <;> split <;>
    first
      | exact h
      | simp [pageValid, go_to_page]

lemma route_total_of_pageValid (s : State) (h : pageValid s) :
    ∃ v, route s.page = some v := by
  rcases h with h | h | h | h <;> simp [route, h]

lemma find?_key_eq {row : List (String × ℚ)} {n : String}
    (h : n ∈ row.map Prod.fst) :
    ∃ p, row.find? (fun q => q.1 == n) = some p ∧ p.1 = n := by
  induction row with
  | nil => simp at h
  | cons a t ih =>
    by_cases ha : a.1 = n
    · refine ⟨a, List.find?_cons_of_pos t ?_, ha⟩
      simp [ha]
    · have hmem : n ∈ t.map Prod.fst := by
        rcases (by simpa using h : n = a.1 ∨ n ∈ t.map Prod.fst) with h1 | h1
        · exact absurd h1.symm ha
        · exact h1
      rcases ih hmem with ⟨p, hp, he⟩
      refine ⟨p, ?_, he⟩
      rw [List.find?_cons_of_neg t (by simp [ha]), hp]

lemma selectColumns_ok {names : List String} {row : List (String × ℚ)}
    (h : ∀ n ∈ names, n ∈ row.map Prod.fst) :
    ∃ d, selectColumns names row = Except.ok d ∧ d.map Prod.fst = names := by
  induction names with
  | nil => exact ⟨[], rfl, rfl⟩
  | cons n rest ih =>
    rcases find?_key_eq (h n (by simp)) with ⟨p, hp, hn⟩
    rcases ih (fun m hm => h m (by simp [hm])) with ⟨d, hd, hmap⟩
    refine ⟨p :: d, ?_, by simp [hmap, hn]⟩
    simp [selectColumns, hp, hd]

lemma mkInputData_keys (i : Inputs) :
    (mkInputData i).map Prod.fst = columnNames := rfl

/-! ## Claim theorems -/

/-- Claim C1: for every model output value, the raw output is mapped to the
displayed label as follows: an output equal to the literal string
`"No_Disease"` yields the Negative result ("No Kidney Disease Detected"),
and any other output yields the Positive result ("Kidney Disease
Detected"). -/
theorem output_label_mapping (m : Model) (i : Inputs) (out : String)
    (h : resultsPrediction m i = Except.ok out) :
    (results_page m i).body =
      ResultsBody.labelShown (labelOf out) (displayOf (labelOf out)) ∧
    (out = "No_Disease" →
      labelOf out = Label.Negative ∧
      displayOf (labelOf out) = "No Kidney Disease Detected") ∧
    (out ≠ "No_Disease" →
      labelOf out = Label.Positive ∧
      displayOf (labelOf out) = "Kidney Disease Detected") := by
  refine ⟨by simp [results_page, h], fun heq => ?_, fun hne => ?_⟩
  · simp [labelOf, heq, displayOf]
  · simp [labelOf, hne, displayOf]

/-- Witness for C1: the demonstration classifier outputting `"No_Disease"`
renders the Negative headline. -/
theorem output_label_mapping_witness :
    (results_page demoNegativeModel defaultInputs).body =
      ResultsBody.labelShown (labelOf "No_Disease")
        (displayOf (labelOf "No_Disease")) :=
  (output_label_mapping demoNegativeModel defaultInputs "No_Disease" rfl).1

/-- Claim C2: the default record satisfies every declared range, and after
any control interaction (and any other event) every stored field still lies
within its declared [min, max] range, out-of-range raw entries being clamped
to the nearest bound. -/
theorem inputs_always_in_range :
    InRange initState.inputs ∧
    (∀ (s : State) (e : Event), InRange s.inputs → InRange (step s e).inputs) :=
  ⟨defaultInputs_inRange, step_preserves_inRange⟩

/-- Witness for C2: an out-of-range glucose entry of 10000 still leaves the
record within range after the interaction. -/
theorem inputs_always_in_range_witness :
    InRange (step { page := 2, inputs := defaultInputs }
      (Event.set_glucose 10000)).inputs :=
  inputs_always_in_range.2 { page := 2, inputs := defaultInputs }
    (Event.set_glucose 10000) defaultInputs_inRange

/-- Claim C3: with the documented default record, the prediction pipeline
produces a column-mapped single-row table with exactly 11 named columns and
hands exactly that table to the model; and the session record is created
once per session with exactly the default values, an existing session being
left untouched. -/
theorem default_record_single_row_table (m : Model)
    (h : m.feature_names_in_ = none) :
    (mkInputData defaultInputs).map Prod.fst = columnNames ∧
    (mkInputData defaultInputs).length = 11 ∧
    columnNames.Nodup ∧
    resultsPrediction m defaultInputs = predictFirst m (mkInputData defaultInputs) ∧
    initSession none = initState ∧
    initState.inputs = defaultInputs ∧
    defaultInputs.age = 40 ∧ defaultInputs.glucose = 100 ∧
    defaultInputs.serum_creatinine = 1.00 ∧ defaultInputs.potassium = 4.00 ∧
    defaultInputs.wbc = 7000 ∧ defaultInputs.urine_output = 1500 ∧
    defaultInputs.blood_urea = 40.00 ∧ defaultInputs.upcr = 0.50 ∧
    defaultInputs.egfr = 90.00 ∧ defaultInputs.pth = 40.00 ∧
    defaultInputs.il6 = 5.00 ∧
    (∀ s, initSession (some s) = s) := by
  refine ⟨rfl, rfl, by decide, ?_, rfl, rfl, rfl, rfl, rfl, rfl, rfl, rfl,
    rfl, rfl, rfl, rfl, rfl, fun s => rfl⟩
  simp [resultsPrediction, h]

/-- Witness for C3: with a concrete model exposing no feature order, the
default-record table is keyed exactly by the 11 column names. -/
theorem default_record_single_row_table_witness :
    (mkInputData defaultInputs).map Prod.fst = columnNames ∧
    (mkInputData defaultInputs).length = 11 :=
  ⟨(default_record_single_row_table demoNegativeModel rfl).1,
   (default_record_single_row_table demoNegativeModel rfl).2.1⟩

/-- Claim C4: when the model exposes `feature_names_in_`, the single-row
table is reordered so that its columns exactly match that list before the
prediction is invoked; when it exposes none, the columns are passed in the
construction order unchanged. -/
theorem feature_order_controls_columns (m : Model) (i : Inputs) :
    (m.feature_names_in_ = none →
      resultsPrediction m i = predictFirst m (mkInputData i)) ∧
    (∀ names, m.feature_names_in_ = some names →
      (∀ n ∈ names, n ∈ columnNames) →
      ∃ d, selectColumns names (mkInputData i) = Except.ok d ∧
        d.map Prod.fst = names ∧
        resultsPrediction m i = predictFirst m d) := by
  refine ⟨fun h => by simp [resultsPrediction, h], fun names h hmem => ?_⟩
  have hkeys : ∀ n ∈ names, n ∈ (mkInputData i).map Prod.fst := by
    intro n hn
    rw [mkInputData_keys]
    exact hmem n hn
  rcases selectColumns_ok hkeys with ⟨d, hd, hmap⟩
  exact ⟨d, hd, hmap, by simp [resultsPrediction, h, hd]⟩

/-- Witness for C4: a classifier expecting the reversed column order receives
the columns reordered to exactly that list. -/
theorem feature_order_controls_columns_witness :
    ∃ d, selectColumns columnNames.reverse (mkInputData defaultInputs) =
        Except.ok d ∧
      d.map Prod.fst = columnNames.reverse ∧
      resultsPrediction demoReorderModel defaultInputs =
        predictFirst demoReorderModel d :=
  (feature_order_controls_columns demoReorderModel defaultInputs).2
    columnNames.reverse rfl (by decide)

/-- Claim C5: when the prediction raises, the error is caught and shown as an
inline message, the Results step still renders without any label, and the
return-home button remains available, with the home transition from the
Results page still going to the Welcome page with the record intact. -/
theorem prediction_error_recovered (m : Model) (i : Inputs) (e : String)
    (h : resultsPrediction m i = Except.error e) :
    results_page m i =
      { body := ResultsBody.inlineError ("Prediction error: " ++ e),
        returnHomeAvailable := true } ∧
    (∀ l title, (results_page m i).body ≠ ResultsBody.labelShown l title) ∧
    (∀ inp, step { page := 4, inputs := inp } Event.home_from_results =
      { page := 1, inputs := inp }) := by
  refine ⟨by simp [results_page, h], fun l title => by simp [results_page, h],
    fun inp => ?_⟩
  simp [step, go_to_page]

/-- Witness for C5: the always-raising demonstration classifier yields the
inline error render. -/
theorem prediction_error_recovered_witness :
    results_page demoFailingModel defaultInputs =
      { body := ResultsBody.inlineError ("Prediction error: " ++ "boom"),
        returnHomeAvailable := true } :=
  (prediction_error_recovered demoFailingModel defaultInputs "boom" rfl).1

/-- Claim C6: a failed model load at process start reports the error with a
human-readable message and terminates startup without rendering any step. -/
theorem model_load_failure_is_fatal (e : String) :
    startApp (Except.error e) =
      AppStart.fatalStop ("Error loading model: " ++ e) ∧
    rendersStep (startApp (Except.error e)) = false :=
  ⟨rfl, rfl⟩

/-- Claim C7: any sequence of navigation events leaves the last-set value of every field unchanged, and `go_to_page` mutates only the current page. -/
theorem navigation_preserves_inputs (s : State) (events : List Event)
    (h : ∀ e ∈ events, isNavEvent e = true) :
    (events.foldl step s).inputs = s.inputs ∧
    (∀ p, (go_to_page s p).inputs = s.inputs) := by
  refine ⟨?_, fun p => rfl⟩
  induction events generalizing s with
  | nil => rfl
  | cons e t ih =>
    have he : isNavEvent e = true := h e (by simp)
    have ht : ∀ x ∈ t, isNavEvent x = true := fun x hx => h x (by simp [hx])
    calc (List.foldl step (step s e) t).inputs
        = (step s e).inputs := ih (step s e) ht
      _ = s.inputs := step_nav_inputs s e he

/-- Witness for C7: walking Welcome, BasicMetrics, KidneyMetrics, Results and
back to Welcome leaves the record exactly as it started. -/
theorem navigation_preserves_inputs_witness :
    (([Event.start_assessment, Event.next_to_kidney, Event.analyze,
        Event.home_from_results].foldl step initState).inputs =
      initState.inputs) :=
  (navigation_preserves_inputs initState
    [Event.start_assessment, Event.next_to_kidney, Event.analyze,
      Event.home_from_results] (by decide)).1

/-- Claim C8: every event either leaves the step unchanged or takes one of
the declared transitions: the linear forward path (1,2), (2,3), (3,4) and
the backward/home transitions (2,1), (3,1), (3,2), (4,1). -/
theorem step_transitions_declared (s : State) (e : Event) :
    (step s e).page = s.page ∨
    (s.page, (step s e).page) ∈ allowedTransitions := by
  cases e with
  | start_assessment =>
    by_cases hc : s.page = 1
    · right; simp [step, hc, go_to_page, allowedTransitions]
    · left; simp [step, hc]
  | home_from_basic =>
    by_cases hc : s.page = 2
    · right; simp [step, hc, go_to_page, allowedTransitions]
    · left; simp [step, hc]
  | next_to_kidney =>
    by_cases hc : s.page = 2
    · right; simp [step, hc, go_to_page, allowedTransitions]
    · left; simp [step, hc]
  | analyze =>
    by_cases hc : s.page = 3
    · right; simp [step, hc, go_to_page, allowedTransitions]
    · left; simp [step, hc]
  | prev_to_basic =>
    by_cases hc : s.page = 3
    · right; simp [step, hc, go_to_page, allowedTransitions]
    · left; simp [step, hc]
  | home_from_kidney =>
    by_cases hc : s.page = 3
    · right; simp [step, hc, go_to_page, allowedTransitions]
    · left; simp [step, hc]
  | home_from_results =>
    by_cases hc : s.page = 4
    · right; simp [step, hc, go_to_page, allowedTransitions]
    · left; simp [step, hc]
  | set_age raw => left; simp only [step]; split <;> rfl
  | set_glucose raw => left; simp only [step]; split <;> rfl
  | set_serum_creatinine raw => left; simp only [step]; split <;> rfl
  | set_potassium raw => left; simp only [step]; split <;> rfl
  | set_wbc raw => left; simp only [step]; split <;> rfl
  | set_urine_output raw => left; simp only [step]; split <;> rfl
  | set_blood_urea raw => left; simp only [step]; split <;> rfl
  | set_upcr raw => left; simp only [step]; split <;> rfl
  | set_egfr raw => left; simp only [step]; split <;> rfl
  | set_pth raw => left; simp only [step]; split <;> rfl
  | set_il6 raw => left; simp only [step]; split <;> rfl

/-- Claim C9: along every event sequence from the initial session state, the
page value stays in {1, 2, 3, 4}, so the four-way router always selects
exactly one page view and never renders an undefined step. -/
theorem page_always_routed (events : List Event) :
    pageValid (events.foldl step initState) ∧
    ∃ v, route ((events.foldl step initState).page) = some v := by
  have hinv : pageValid (events.foldl step initState) := by
    induction events using List.reverseRecOn with
    | nil => exact Or.inl rfl
    | append_singleton t e ih =>
      rw [List.foldl_append, List.foldl_cons, List.foldl_nil]
      exact step_preserves_pageValid _ e ih
  exact ⟨hinv, route_total_of_pageValid _ hinv⟩

/-- Claim C10: when the model exposes no feature-order list, it is invoked
with the 11 columns in the hard-coded construction order, which differs from
the order the fields are collected in; and the IL-6 column name lacks the
"(pg/ml)" unit suffix that the label of the IL-6 input control carries. -/
theorem construction_order_and_il6_label (m : Model) (i : Inputs)
    (h : m.feature_names_in_ = none) :
    resultsPrediction m i = predictFirst m (mkInputData i) ∧
    (mkInputData i).map Prod.fst = columnNames ∧
    constructionOrderFields ≠ collectionOrderFields ∧
    il6ColumnName ∈ columnNames ∧
    il6ColumnName ≠ il6ControlLabel ∧
    il6ControlLabel = il6ColumnName ++ " (pg/ml)" := by
  refine ⟨by simp [resultsPrediction, h], rfl, by decide, by decide,
    by decide, rfl⟩

/-- Witness for C10: with a concrete feature-order-free classifier, the
pipeline passes the construction-order table straight to the model. -/
theorem construction_order_and_il6_label_witness :
    resultsPrediction demoNegativeModel defaultInputs =
      predictFirst demoNegativeModel (mkInputData defaultInputs) :=
  (construction_order_and_il6_label demoNegativeModel defaultInputs rfl).1

end KidneyApp
